import Mathlib

/-!
# Library catalog controllers

A shallow embedding of the request handlers of `controllers/bookController.js`,
`controllers/bookinstanceController.js` and `controllers/genreController.js`.

* The database is a record of four collections (lists of records, in stored order).
* A handler is a function from the request data and the database to the chronological
  list of calls it makes on `res` and `next` (its *effects*), paired with the resulting
  database when the handler writes.
* Every database call may fail: `Faults` names, per call, the error it rejects with.
* What the absent model files decide (the `url` virtuals, the type of reference fields)
  and the date functions of the validation library are parameters, gathered in `Env`.
-/

namespace LibraryCatalog

/-! ## Errors, promises, the calls a handler makes -/

/-- A JavaScript `Error` object: its message and the `status` property the handlers stamp on it. -/
structure Err where
  message : String
  status : Option Nat
deriving DecidableEq, Repr

/-- A settled promise. -/
inductive Promise (α : Type) where
  | resolved (value : α)
  | rejected (reason : Err)
deriving Repr

/-- Per database call (named by the source expression that issues it), the error it rejects
with, if any. -/
abbrev Faults := String → Option Err

/-- The environment in which every database call succeeds. -/
def noFaults : Faults := fun _ => none

/-- A database call: rejects with the fault when there is one, else resolves to `value`. -/
def query {α : Type} (fault : Option Err) (value : α) : Promise α :=
  match fault with
  | some e => .rejected e
  | none => .resolved value

/-- The task body `p.then((v) => callback(null, v))` of the `async.parallel` calls: the task
reports `callback(null, v)` when the promise resolves and never calls back when it rejects
(there is no rejection handler). `none` is "the callback is never called". -/
def thenCallback {α : Type} : Promise α → Option (Except Err α)
  | .resolved v => some (.ok v)
  | .rejected _ => none

/-- The library call `async.parallel({a, b}, final)`: `final(err)` on the first task that
reports an error, `final(null, results)` once every task has reported, and no call of `final`
while some task stays silent. -/
def parallel2 {α β : Type} :
    Option (Except Err α) → Option (Except Err β) → Option (Except Err (α × β))
  | some (.error e), _ => some (.error e)
  | _, some (.error e) => some (.error e)
  | some (.ok a), some (.ok b) => some (.ok (a, b))
  | _, _ => none

/-- The library call `async.parallel` with three tasks. -/
def parallel3 {α β γ : Type} :
    Option (Except Err α) → Option (Except Err β) → Option (Except Err γ) →
      Option (Except Err (α × β × γ))
  | some (.error e), _, _ => some (.error e)
  | _, some (.error e), _ => some (.error e)
  | _, _, some (.error e) => some (.error e)
  | some (.ok a), some (.ok b), some (.ok c) => some (.ok (a, b, c))
  | _, _, _ => none

/-! ## Sanitizers of the validation library -/

/-- The characters matched by the JavaScript regular expression class `\s`. -/
def isJsSpace (c : Char) : Bool :=
  c.toNat = 9 || c.toNat = 10 || c.toNat = 11 || c.toNat = 12 || c.toNat = 13 ||
  c.toNat = 32 || c.toNat = 160 || c.toNat = 5760 ||
  (8192 ≤ c.toNat && c.toNat ≤ 8202) ||
  c.toNat = 8232 || c.toNat = 8233 || c.toNat = 8239 || c.toNat = 8287 ||
  c.toNat = 12288 || c.toNat = 65279

/-- The sanitizer `.trim()`: white space removed from both ends. -/
def trim (s : String) : String :=
  String.mk ((s.data.dropWhile isJsSpace).reverse.dropWhile isJsSpace).reverse

/-- The replacement `.escape()` makes for one character. -/
def escapeChar (c : Char) : List Char :=
  if c = Char.ofNat 38 then "&amp;".data
  else if c = Char.ofNat 34 then "&quot;".data
  else if c = Char.ofNat 39 then "&#x27;".data
  else if c = Char.ofNat 60 then "&lt;".data
  else if c = Char.ofNat 62 then "&gt;".data
  else if c = Char.ofNat 47 then "&#x2F;".data
  else if c = Char.ofNat 92 then "&#x5C;".data
  else if c = Char.ofNat 96 then "&#96;".data
  else [c]

/-- The sanitizer `.escape()`: the characters `& " ' < > / \` and the backtick are replaced
by HTML entities. -/
def escape (s : String) : String :=
  String.mk (s.data.flatMap escapeChar)

/-- One entry of `validationResult(req).array()`. -/
structure ValidationError where
  value : String
  msg : String
  param : String
deriving DecidableEq, Repr

/-- The chain `body(field, msg).trim().isLength({ min: 1 }).escape()` on a string field:
the value left in `req.body` and the errors recorded. The length test sees the trimmed value;
the escape runs whether or not the test passed. -/
def requiredChain (field msg raw : String) : String × List ValidationError :=
  (escape (trim raw),
    if 1 ≤ (trim raw).length then []
    else [{ value := trim raw, msg := msg, param := field }])

/-! ## Records -/

/-- A date value (milliseconds since the epoch). -/
abbrev Date := Int

/-- Modelled from the spec: the Author record of the absent `models/author`; the spec gives it
an identifier and name fields. -/
structure Author where
  _id : String
  name : String
deriving DecidableEq, Repr

/-- A stored Genre. -/
structure Genre where
  _id : String
  name : String
deriving DecidableEq, Repr

/-- A Genre document in memory, which a handler may stamp with `checked`. -/
structure GenreDoc where
  _id : String
  name : String
  checked : Option String
deriving DecidableEq, Repr

/-- A stored Book; `author` and `genre` hold identifiers. -/
structure Book where
  _id : String
  title : String
  author : String
  summary : String
  isbn : String
  genre : List String
deriving DecidableEq, Repr

/-- A Book document in memory, as `new Book(...)` builds it. The two reference paths hold
what the submitted values cast to: `author` is undefined (`none`) when its value does not
cast; `genre` is `none` when some element does not cast, and the document then reads as its
default, the empty array. A `none` is a cast error the document carries. -/
structure BookDoc where
  _id : String
  title : String
  author : Option String
  summary : String
  isbn : String
  genre : Option (List String)
deriving DecidableEq, Repr

/-- A BookInstance, stored or in memory; `book` holds an identifier, and in memory is
undefined (`none`) when the submitted value does not cast to one. -/
structure BookInstance where
  _id : String
  book : Option String
  imprint : String
  status : String
  due_back : Option Date
deriving DecidableEq, Repr

/-- The database: one collection per record type, in stored order. -/
structure Db where
  authors : List Author
  genres : List Genre
  books : List Book
  instances : List BookInstance
deriving DecidableEq, Repr

/-- What the handlers take from outside the three controller files. -/
structure Env where
  /-- Modelled from the spec: the `url` virtual of the absent Book model, the detail address
  of the record with the given identifier. -/
  bookUrl : String → String
  /-- Modelled from the spec: the `url` virtual of the absent Genre model. -/
  genreUrl : String → String
  /-- Modelled from the spec: the `url` virtual of the absent BookInstance model. -/
  instanceUrl : String → String
  /-- Modelled from the spec: Book holds references to one Author and to Genres, BookInstance
  a reference to one Book; this is the cast the absent schemas apply to a submitted string,
  giving the identifier stored for it, or nothing when the string is no identifier. -/
  castObjectId : String → Option String
  /-- The validator `.isISO8601()` of the validation library. -/
  isISO8601 : String → Bool
  /-- The sanitizer `.toDate()` of the validation library. -/
  toDate : String → Option Date

/-! ## View models -/

/-- A Book as `Book.find({}, "title author").populate("author")` returns it. -/
structure BookListItem where
  _id : String
  title : String
  author : Option Author
deriving DecidableEq, Repr

/-- A Book as `Book.find({}, "title")` returns it. -/
structure BookTitle where
  _id : String
  title : String
deriving DecidableEq, Repr

/-- A Book with `author` and `genre` populated. -/
structure BookPopulated where
  _id : String
  title : String
  author : Option Author
  summary : String
  isbn : String
  genre : List Genre
deriving DecidableEq, Repr

/-- A BookInstance with `book` populated. -/
structure InstancePopulated where
  _id : String
  book : Option Book
  imprint : String
  status : String
  due_back : Option Date
deriving DecidableEq, Repr

/-- The locals object passed to `res.render`, one constructor per shape. -/
inductive Locals where
  | genreList (title : String) (genre_list : List Genre)
  | genreDetail (title : String) (genre : Genre) (genre_books : List Book)
  | genreForm (title : String) (genre : Genre) (errors : List ValidationError)
  | genreDelete (title : String) (genre : Option Genre) (genre_books : List Book)
  | bookList (title : String) (book_list : List BookListItem)
  | bookDetail (title : String) (book : BookPopulated) (book_instances : List BookInstance)
  | bookFormErrors (title : String) (authors : List Author) (genres : List GenreDoc)
      (book : BookDoc) (errors : List ValidationError)
  | bookFormUpdate (title : String) (authors : List Author) (genres : List GenreDoc)
      (book : BookPopulated)
  | bookDelete (title : String) (book : Option Book) (book_instances : List BookInstance)
  | instanceList (title : String) (bookinstance_list : List InstancePopulated)
  | instanceDetail (title : String) (bookinstance : InstancePopulated)
  | instanceForm (title : String) (book_list : List BookTitle) (selected_book : String)
      (errors : List ValidationError) (bookinstance : BookInstance)
  | instanceDelete (title : String) (inst : Option BookInstance)
deriving DecidableEq, Repr

/-- One call a handler makes on `res` or `next`. -/
inductive Effect where
  /-- The call `res.render(view, locals)`. -/
  | render (view : String) (locals : Locals)
  /-- The call `res.redirect(url)`. -/
  | redirect (url : String)
  /-- The call `next(err)`. -/
  | next (err : Err)
  /-- The call `next()`. -/
  | nextStep
deriving DecidableEq, Repr

/-- The error a handler builds for a missing record: `new Error(message)` with
`err.status = 404`. -/
def notFound (message : String) : Err :=
  { message := message, status := some 404 }

/-- The `ValidationError` with which `save` reports a document that carries a cast error
(message abridged to its head). -/
def validationError (model : String) : Err :=
  { message := model ++ " validation failed", status := none }

/-- The `TypeError` raised by reading a property of `undefined` or `null`. -/
def typeError : Err :=
  { message := "TypeError: cannot read properties of undefined or null", status := none }

/-! ## Queries -/

/-- The order of `.sort()` on a string key: code point by code point, a proper prefix first. -/
def keyLe (a b : String) : Prop := a.data ≤ b.data

instance keyLeDecidable (a b : String) : Decidable (keyLe a b) :=
  inferInstanceAs (Decidable (a.data ≤ b.data))

/-- The query `Genre.findById(id)`. -/
def findGenre (db : Db) (id : String) : Option Genre :=
  db.genres.find? (fun g => g._id == id)

/-- The query `Book.findById(id)`. -/
def findBook (db : Db) (id : String) : Option Book :=
  db.books.find? (fun b => b._id == id)

/-- The query `BookInstance.findById(id)`. -/
def findInstance (db : Db) (id : String) : Option BookInstance :=
  db.instances.find? (fun i => i._id == id)

/-- The step `.populate("author")`: the referenced Author, or nothing when it is missing. -/
def populateAuthor (db : Db) (id : String) : Option Author :=
  db.authors.find? (fun a => a._id == id)

/-- The step `.populate("genre")`: the referenced Genres in the order of the references,
missing ones dropped. -/
def populateGenres (db : Db) (ids : List String) : List Genre :=
  ids.filterMap (findGenre db)

/-- A Book with both references populated. -/
def populateBook (db : Db) (b : Book) : BookPopulated :=
  { _id := b._id, title := b.title, author := populateAuthor db b.author,
    summary := b.summary, isbn := b.isbn, genre := populateGenres db b.genre }

/-- The step `.populate("book")` on a BookInstance. -/
def populateInstance (db : Db) (i : BookInstance) : InstancePopulated :=
  { _id := i._id, book := i.book.bind (findBook db), imprint := i.imprint,
    status := i.status, due_back := i.due_back }

/-- The query `Book.find({ genre: id })`. -/
def booksOfGenre (db : Db) (id : String) : List Book :=
  db.books.filter (fun b => b.genre.contains id)

/-- The query `BookInstance.find({ book: id })`. -/
def instancesOfBook (db : Db) (id : String) : List BookInstance :=
  db.instances.filter (fun i => i.book == some id)

/-- The query `Book.find({}, "title")`. -/
def bookTitles (db : Db) : List BookTitle :=
  db.books.map (fun b => { _id := b._id, title := b.title })

/-- The query `Genre.find()` as documents in memory, none of them stamped. -/
def genreDocs (db : Db) : List GenreDoc :=
  db.genres.map (fun g => { _id := g._id, name := g.name, checked := none })

/-! ## genreController.js -/

/-- Handler `genre_list`: all Genres sorted ascending by name. The promise has no rejection
handler, so a failed query produces no call at all. -/
def genre_list (faults : Faults) (db : Db) : List Effect :=
  match query (faults "Genre.find.sort")
      (db.genres.insertionSort (fun a b => keyLe a.name b.name)) with
  | .resolved genre_list => [.render "genre_list.pug" (.genreList "Genre List" genre_list)]
  | .rejected _ => []

/-- Handler `genre_detail`. -/
def genre_detail (faults : Faults) (id : String) (db : Db) : List Effect :=
  match parallel2
      (thenCallback (query (faults "Genre.findById") (findGenre db id)))
      (thenCallback (query (faults "Book.find") (booksOfGenre db id))) with
  | none => []
  | some (.error err) => [.next err]
  | some (.ok (genre, genre_books)) =>
    match genre with
    | none => [.next (notFound "Genre not found")]
    | some g => [.render "genre_detail" (.genreDetail "Genre Detail" g genre_books)]

/-- Handler `genre_create_post`: the validation chain on `name`, then the final step.
`newId` is the identifier `new Genre(...)` allocates. -/
def genre_create_post (env : Env) (faults : Faults) (newId : String) (name : String)
    (db : Db) : List Effect × Db :=
  let checked := requiredChain "name" "Genre name required" name
  let errors := checked.2
  let genre : Genre := { _id := newId, name := checked.1 }
  if !errors.isEmpty then
    ([.render "genre_form" (.genreForm "Create Genre" genre errors)], db)
  else
    match query (faults "Genre.findOne") (db.genres.find? (fun g => g.name == checked.1)) with
    | .rejected err => ([.next err], db)
    | .resolved (some found_genre) => ([.redirect (env.genreUrl found_genre._id)], db)
    | .resolved none =>
      match query (faults "genre.save") () with
      | .rejected err => ([.next err], db)
      | .resolved _ =>
        ([.redirect (env.genreUrl genre._id)], { db with genres := db.genres ++ [genre] })

/-- Handler `genre_delete_get`. After the redirect for a missing Genre there is no `return`:
control falls through to `res.render`. -/
def genre_delete_get (faults : Faults) (id : String) (db : Db) : List Effect :=
  match parallel2
      (thenCallback (query (faults "Genre.findById") (findGenre db id)))
      (thenCallback (query (faults "Book.find") (booksOfGenre db id))) with
  | none => []
  | some (.error err) => [.next err]
  | some (.ok (genre, genre_books)) =>
    (if genre.isNone then [.redirect "/catalog/genres"] else []) ++
      [.render "genre_delete" (.genreDelete "Delete Genre" genre genre_books)]

/-! ## bookinstanceController.js -/

/-- Handler `bookinstance_list`: `BookInstance.find().populate("book")`, with no sort. -/
def bookinstance_list (faults : Faults) (db : Db) : List Effect :=
  match query (faults "BookInstance.find") (db.instances.map (populateInstance db)) with
  | .resolved list_bookinstances =>
    [.render "bookinstance_list" (.instanceList "Book Instance List" list_bookinstances)]
  | .rejected err => [.next err]

/-- Handler `bookinstance_detail`. Reading `bookinstance.book.title` throws when the populated
book is missing; the throw rejects the promise and reaches the `.catch`. -/
def bookinstance_detail (faults : Faults) (id : String) (db : Db) : List Effect :=
  match query (faults "BookInstance.findById") ((findInstance db id).map (populateInstance db)) with
  | .rejected err => [.next err]
  | .resolved none => [.next (notFound "Book copy not found")]
  | .resolved (some bookinstance) =>
    match bookinstance.book with
    | none => [.next typeError]
    | some book => [.render "bookinstance_detail" (.instanceDetail ("Copy: " ++ book.title) bookinstance)]

/-- The body of the BookInstance form. -/
structure InstanceBody where
  book : String
  imprint : String
  status : String
  due_back : String
deriving DecidableEq, Repr

/-- The body after the four validation chains of `bookinstance_create_post`. An empty
`due_back` skips its chain (`optional({ checkFalsy: true })`) and is stored as no date. -/
structure InstanceChecked where
  book : String
  imprint : String
  status : String
  due_back : Option Date
deriving DecidableEq, Repr

/-- The four validation chains of `bookinstance_create_post`, in order. -/
def bookinstance_validate (env : Env) (body : InstanceBody) :
    InstanceChecked × List ValidationError :=
  let book := requiredChain "book" "Book must be specified" body.book
  let imprint := requiredChain "imprint" "Imprint must be specified" body.imprint
  let due : Option Date × List ValidationError :=
    if body.due_back = "" then (none, [])
    else (env.toDate body.due_back,
      if env.isISO8601 body.due_back then []
      else [{ value := body.due_back, msg := "Invalid date", param := "due_back" }])
  ({ book := book.1, imprint := imprint.1, status := escape body.status, due_back := due.1 },
    book.2 ++ imprint.2 ++ due.2)

/-- The cast of a submitted string to a reference: the identifier stored for it, or
nothing. -/
def castRef (env : Env) (s : String) : Option String :=
  env.castObjectId s

/-- Handler `bookinstance_create_post`. In the error branch `bookinstance.book._id` is read
inside the `.then`; when `bookinstance.book` is undefined the read throws and the `.catch`
forwards the error. In the valid branch `save` validates before it writes: a document whose
`book` did not cast is reported as a `ValidationError` and nothing is written. -/
def bookinstance_create_post (env : Env) (faults : Faults) (newId : String)
    (body : InstanceBody) (db : Db) : List Effect × Db :=
  let checked := bookinstance_validate env body
  let errors := checked.2
  let bookinstance : BookInstance :=
    { _id := newId, book := castRef env checked.1.book, imprint := checked.1.imprint,
      status := checked.1.status, due_back := checked.1.due_back }
  if !errors.isEmpty then
    match query (faults "Book.find") (bookTitles db) with
    | .rejected err => ([.next err], db)
    | .resolved books =>
      match bookinstance.book with
      | none => ([.next typeError], db)
      | some selected_book =>
        ([.render "bookinstance_form"
          (.instanceForm "Create BookInstance" books selected_book errors bookinstance)], db)
  else
    match bookinstance.book with
    | none => ([.next (validationError "BookInstance")], db)
    | some _ =>
      match faults "bookinstance.save" with
      | some err => ([.next err], db)
      | none =>
        ([.redirect (env.instanceUrl bookinstance._id)],
          { db with instances := db.instances ++ [bookinstance] })

/-- Handler `bookinstance_delete_get`, an `async` function: a rejected `await` ends it with
no call. After the redirect for a missing instance there is no `return`. -/
def bookinstance_delete_get (faults : Faults) (id : String) (db : Db) : List Effect :=
  match query (faults "BookInstance.findById") (findInstance db id) with
  | .rejected _ => []
  | .resolved inst =>
    (if inst.isNone then [.redirect "/catalog/instances"] else []) ++
      [.render "bookinstance_delete" (.instanceDelete "Delete Instance" inst)]

/-! ## bookController.js -/

/-- Handler `book_list`: title and author of every Book, sorted ascending by title, the author
populated. -/
def book_list (faults : Faults) (db : Db) : List Effect :=
  match query (faults "Book.find.sort")
      ((db.books.insertionSort (fun a b => keyLe a.title b.title)).map
        (fun b => ({ _id := b._id, title := b.title,
                     author := populateAuthor db b.author } : BookListItem))) with
  | .resolved list_books => [.render "book_list" (.bookList "Book List" list_books)]
  | .rejected err => [.next err]

/-- Handler `book_detail`. -/
def book_detail (faults : Faults) (id : String) (db : Db) : List Effect :=
  match parallel2
      (thenCallback (query (faults "Book.findById") ((findBook db id).map (populateBook db))))
      (thenCallback (query (faults "BookInstance.find") (instancesOfBook db id))) with
  | none => []
  | some (.error err) => [.next err]
  | some (.ok (book, book_instance)) =>
    match book with
    | none => [.next (notFound "Book not found")]
    | some b => [.render "book_detail" (.bookDetail b.title b book_instance)]

/-- The value of `req.body.genre` as the body parser leaves it. -/
inductive GenreInput where
  /-- No `genre` key: `typeof req.body.genre === "undefined"`. -/
  | undefined
  /-- A single value, not an array. -/
  | scalar (g : String)
  /-- An array: `Array.isArray(req.body.genre)`. -/
  | array (gs : List String)
deriving DecidableEq, Repr

/-- A request body: its `genre` key and, in `rest`, every other key. -/
structure ReqBody (ρ : Type) where
  genre : GenreInput
  rest : ρ
deriving DecidableEq, Repr

/-- The string fields of the Book form. -/
structure BookFields where
  title : String
  author : String
  summary : String
  isbn : String
deriving DecidableEq, Repr

/-- First step of `book_create_post`: convert the genre to an array, then `next()`. -/
def book_create_post_toArray {ρ : Type} (body : ReqBody ρ) : ReqBody ρ × List Effect :=
  let body1 :=
    match body.genre with
    | .array _ => body
    | .undefined => { body with genre := .array [] }
    | .scalar g => { body with genre := .array [g] }
  (body1, [.nextStep])

/-- First step of `book_update_post`: convert the genre to an array, then `next()`. -/
def book_update_post_toArray {ρ : Type} (body : ReqBody ρ) : ReqBody ρ × List Effect :=
  let body1 :=
    match body.genre with
    | .array _ => body
    | .undefined => { body with genre := .array [] }
    | .scalar g => { body with genre := .array [g] }
  (body1, [.nextStep])

/-- The chain `body("genre.*").escape()`: every element of the array is escaped. -/
def escapeEach : GenreInput → GenreInput
  | .array gs => .array (gs.map escape)
  | g => g

/-- The five validation chains shared by `book_create_post` and `book_update_post`. -/
def book_validate (body : ReqBody BookFields) : ReqBody BookFields × List ValidationError :=
  let title := requiredChain "title" "Title must not be empty." body.rest.title
  let author := requiredChain "author" "Author must not be empty." body.rest.author
  let summary := requiredChain "summary" "Summary must not be empty." body.rest.summary
  let isbn := requiredChain "isbn" "ISBN must not be empty" body.rest.isbn
  ({ genre := escapeEach body.genre,
     rest := { title := title.1, author := author.1, summary := summary.1, isbn := isbn.1 } },
    title.2 ++ author.2 ++ summary.2 ++ isbn.2)

/-- The array a Book document holds for a given `genre` value. -/
def castGenre : GenreInput → List String
  | .undefined => []
  | .scalar g => [g]
  | .array gs => gs

/-- The cast of an array of submitted strings to references: every element cast, or nothing
when one of them does not cast. -/
def castRefs (env : Env) : List String → Option (List String)
  | [] => some []
  | r :: rs =>
    match env.castObjectId r, castRefs env rs with
    | some a, some more => some (a :: more)
    | _, _ => none

/-- The document `new Book({ title, author, summary, isbn, genre, _id })` for sanitized
string fields and a `genre` array. -/
def newBook (env : Env) (id : String) (fields : BookFields) (genre : List String) : BookDoc :=
  { _id := id, title := fields.title, author := env.castObjectId fields.author,
    summary := fields.summary, isbn := fields.isbn, genre := castRefs env genre }

/-- The loop "mark our selected genres as checked" of the two POST handlers:
`if (book.genre.includes(genre._id)) genre.checked = "true"`. -/
def markIncluded (book : BookDoc) (genres : List GenreDoc) : List GenreDoc :=
  genres.map (fun genre =>
    if (book.genre.getD []).contains genre._id then { genre with checked := some "true" }
    else genre)

/-- Final step of `book_create_post`. `newId` is the identifier `new Book(...)` allocates.
In the valid branch `save` validates before it writes: a document that carries a cast error
is reported as a `ValidationError` and nothing is written. -/
def book_create_post_final (env : Env) (faults : Faults) (newId : String)
    (body : ReqBody BookFields) (errors : List ValidationError) (db : Db) :
    List Effect × Db :=
  let book : BookDoc := newBook env newId body.rest (castGenre body.genre)
  if !errors.isEmpty then
    match parallel2
        (thenCallback (query (faults "Author.find") db.authors))
        (thenCallback (query (faults "Genre.find") (genreDocs db))) with
    | none => ([], db)
    | some (.error err) => ([.next err], db)
    | some (.ok (authors, genres)) =>
      ([.render "book_form"
        (.bookFormErrors "Create Book" authors (markIncluded book genres) book errors)], db)
  else
    match book.author, book.genre with
    | some author, some genre =>
      match faults "book.save" with
      | some err => ([.next err], db)
      | none =>
        ([.redirect (env.bookUrl book._id)],
          { db with books := db.books ++
              [{ _id := book._id, title := book.title, author := author,
                 summary := book.summary, isbn := book.isbn, genre := genre }] })
    | _, _ => ([.next (validationError "Book")], db)

/-- Handler `book_create_post`: the steps of the array in order, each reached through the
`next()` of the one before. -/
def book_create_post (env : Env) (faults : Faults) (newId : String)
    (body : ReqBody BookFields) (db : Db) : List Effect × Db :=
  match book_create_post_toArray body with
  | (body1, [.nextStep]) =>
    book_create_post_final env faults newId (book_validate body1).1 (book_validate body1).2 db
  | (_, calls) => (calls, db)

/-- Handler `book_delete_get`. After the redirect for a missing Book there is no `return`:
control falls through to `res.render`. -/
def book_delete_get (faults : Faults) (id : String) (db : Db) : List Effect :=
  match parallel2
      (thenCallback (query (faults "Book.findById") (findBook db id)))
      (thenCallback (query (faults "BookInstance.find") (instancesOfBook db id))) with
  | none => []
  | some (.error err) => [.next err]
  | some (.ok (book, book_instances)) =>
    (if book.isNone then [.redirect "/catalog/books"] else []) ++
      [.render "book_delete" (.bookDelete "Delete Book" book book_instances)]

/-- The inner loop of `book_update_get` for one genre of the form:
`if (genre._id.toString() === bookGenre._id.toString()) genre.checked = "true"`. -/
def markAgainst (genre : GenreDoc) : List Genre → GenreDoc
  | [] => genre
  | bookGenre :: more =>
    markAgainst (if genre._id = bookGenre._id then { genre with checked := some "true" } else genre)
      more

/-- The nested loops "mark our selected genres as checked" of `book_update_get`. -/
def markSelected (genres : List GenreDoc) (bookGenres : List Genre) : List GenreDoc :=
  genres.map (fun genre => markAgainst genre bookGenres)

/-- Handler `book_update_get`. -/
def book_update_get (faults : Faults) (id : String) (db : Db) : List Effect :=
  match parallel3
      (thenCallback (query (faults "Book.findById") ((findBook db id).map (populateBook db))))
      (thenCallback (query (faults "Author.find") db.authors))
      (thenCallback (query (faults "Genre.find") (genreDocs db))) with
  | none => []
  | some (.error err) => [.next err]
  | some (.ok (book, authors, genres)) =>
    match book with
    | none => [.next (notFound "Book not found")]
    | some b =>
      [.render "book_form" (.bookFormUpdate "Update Book" authors (markSelected genres b.genre) b)]

/-- What the update built from the document `book` makes of one stored Book: every path
the document holds is set, so the string fields and the `genre` array (the empty default
when its cast failed) are overwritten, and `author` is overwritten only when it cast. -/
def applyUpdate (book : BookDoc) (stored : Book) : Book :=
  { _id := book._id, title := book.title, author := book.author.getD stored.author,
    summary := book.summary, isbn := book.isbn, genre := book.genre.getD [] }

/-- The write of `Book.findByIdAndUpdate(id, book, {})`: the update is applied to the first
Book with that identifier; nothing is inserted when there is none. -/
def updateById (id : String) (book : BookDoc) : List Book → List Book
  | [] => []
  | b :: bs => if b._id == id then applyUpdate book b :: bs else b :: updateById id book bs

/-- Final step of `book_update_post`. The promise of `findByIdAndUpdate` resolves to the
document as it was before the update; a rejection, or the throw of `thebook.url` on `null`,
reaches a `.catch` that only logs. -/
def book_update_post_final (env : Env) (faults : Faults) (id : String)
    (body : ReqBody BookFields) (errors : List ValidationError) (db : Db) :
    List Effect × Db :=
  let book : BookDoc :=
    newBook env id body.rest
      (match body.genre with
        | .undefined => []
        | g => castGenre g)
  if !errors.isEmpty then
    match parallel2
        (thenCallback (query (faults "Author.find") db.authors))
        (thenCallback (query (faults "Genre.find") (genreDocs db))) with
    | none => ([], db)
    | some (.error err) => ([.next err], db)
    | some (.ok (authors, genres)) =>
      ([.render "book_form"
        (.bookFormErrors "Update Book" authors (markIncluded book genres) book errors)], db)
  else
    match query (faults "Book.findByIdAndUpdate") (findBook db id) with
    | .rejected _ => ([], db)
    | .resolved none => ([], db)
    | .resolved (some thebook) =>
      ([.redirect (env.bookUrl thebook._id)], { db with books := updateById id book db.books })

/-- Handler `book_update_post`: the steps of the array in order. -/
def book_update_post (env : Env) (faults : Faults) (id : String)
    (body : ReqBody BookFields) (db : Db) : List Effect × Db :=
  match book_update_post_toArray body with
  | (body1, [.nextStep]) =>
    book_update_post_final env faults id (book_validate body1).1 (book_validate body1).2 db
  | (_, calls) => (calls, db)

/-! ## Sample data for the concrete evaluations -/

/-- A hexadecimal digit. -/
def hexDigit (c : Char) : Bool :=
  (48 ≤ c.toNat && c.toNat ≤ 57) || (97 ≤ c.toNat && c.toNat ≤ 102) ||
  (65 ≤ c.toNat && c.toNat ≤ 70)

/-- The lower-case hexadecimal digit of a number below 16. -/
def hexChar (n : Nat) : Char :=
  if n < 10 then Char.ofNat (48 + n) else Char.ofNat (87 + n)

/-- A hexadecimal digit in lower case. -/
def lowerHex (c : Char) : Char :=
  if 65 ≤ c.toNat && c.toNat ≤ 70 then Char.ofNat (c.toNat + 32) else c

/-- The cast of a string to an identifier in the examples: 24 hexadecimal digits give the
identifier they spell, 12 one-byte characters the identifier with those bytes, anything else
does not cast. -/
def sampleCast (s : String) : Option String :=
  if s.length = 24 && s.data.all hexDigit then some (String.mk (s.data.map lowerHex))
  else if s.length = 12 && s.data.all (fun c => c.toNat < 128) then
    some (String.mk (s.data.flatMap (fun c => [hexChar (c.toNat / 16), hexChar (c.toNat % 16)])))
  else none

/-- An environment for the examples: detail addresses under `/catalog`, the cast
`sampleCast`, one known date. -/
def sampleEnv : Env :=
  { bookUrl := fun id => "/catalog/book/" ++ id,
    genreUrl := fun id => "/catalog/genre/" ++ id,
    instanceUrl := fun id => "/catalog/bookinstance/" ++ id,
    castObjectId := sampleCast,
    isISO8601 := fun s => s = "2024-01-31",
    toDate := fun s => if s = "2024-01-31" then some 1706659200000 else none }

/-- The faults in which exactly the call `op` rejects, with `e`. -/
def failing (op : String) (e : Err) : Faults :=
  fun o => if o = op then some e else none

/-- A cast error, as a query on a malformed identifier rejects with. -/
def castError : Err :=
  { message := "Cast to ObjectId failed", status := none }

/-- A database with one author, two genres, two books and two copies, each collection stored
in descending order of every one of its string fields. -/
def sampleDb : Db :=
  { authors := [{ _id := "aaaaaaaaaaaaaaaaaaaaaaa1", name := "Le Guin" }],
    genres := [{ _id := "cccccccccccccccccccccc02", name := "Science Fiction" },
               { _id := "cccccccccccccccccccccc01", name := "Fantasy" }],
    books := [{ _id := "bbbbbbbbbbbbbbbbbbbbbb02", title := "The Dispossessed",
                author := "aaaaaaaaaaaaaaaaaaaaaaa1", summary := "An ambiguous utopia",
                isbn := "9780061054884", genre := ["cccccccccccccccccccccc02"] },
              { _id := "bbbbbbbbbbbbbbbbbbbbbb01", title := "A Wizard of Earthsea",
                author := "aaaaaaaaaaaaaaaaaaaaaaa1", summary := "Ged and the shadow",
                isbn := "9780547773742", genre := ["cccccccccccccccccccccc01"] }],
    instances := [{ _id := "dddddddddddddddddddddd02",
                    book := some "bbbbbbbbbbbbbbbbbbbbbb02", imprint := "Millennium, 1999",
                    status := "Maintenance", due_back := none },
                  { _id := "dddddddddddddddddddddd01",
                    book := some "bbbbbbbbbbbbbbbbbbbbbb01", imprint := "Houghton, 2012",
                    status := "Available", due_back := some 1706659200000 }] }

/-! ## Counting error messages -/

/-- The number of entries of an errors list that belong to one field. -/
def countFor (errors : List ValidationError) (field : String) : Nat :=
  (errors.filter (fun e => e.param == field)).length

/-! ## Facts about the building blocks -/

theorem keyLe_total (a b : String) : keyLe a b ∨ keyLe b a := le_total a.data b.data

theorem keyLe_trans {a b c : String} (h1 : keyLe a b) (h2 : keyLe b c) : keyLe a c :=
  le_trans (α := List Char) h1 h2

theorem keyLe_antisymm {a b : String} (h1 : keyLe a b) (h2 : keyLe b a) : a = b :=
  String.ext (le_antisymm (α := List Char) h1 h2)

/-- Sorting by a string key yields a list in ascending order of that key. -/
theorem sortByKey_sorted {α : Type} (key : α → String) (l : List α) :
    (l.insertionSort (fun a b => keyLe (key a) (key b))).Sorted
      (fun a b => keyLe (key a) (key b)) := by
  haveI : IsTotal α (fun a b => keyLe (key a) (key b)) := ⟨fun a b => keyLe_total _ _⟩
  haveI : IsTrans α (fun a b => keyLe (key a) (key b)) := ⟨fun _ _ _ h1 h2 => keyLe_trans h1 h2⟩
  exact List.sorted_insertionSort _ l

/-- The sequence of keys after sorting does not depend on the stored order. -/
theorem sortByKey_keys_of_perm {α : Type} (key : α → String) {l1 l2 : List α}
    (h : l1.Perm l2) :
    (l1.insertionSort (fun a b => keyLe (key a) (key b))).map key
      = (l2.insertionSort (fun a b => keyLe (key a) (key b))).map key := by
  haveI : IsAntisymm String keyLe := ⟨fun _ _ h1 h2 => keyLe_antisymm h1 h2⟩
  refine List.eq_of_perm_of_sorted (r := keyLe) ?_ ?_ ?_
  · exact (((List.perm_insertionSort _ l1).trans h).trans
      (List.perm_insertionSort _ l2).symm).map key
  · exact List.Pairwise.map key (fun _ _ h => h) (sortByKey_sorted key l1)
  · exact List.Pairwise.map key (fun _ _ h => h) (sortByKey_sorted key l2)

/-- The inner loop of `book_update_get` stamps a genre exactly when its identifier is that of
some genre of the book, and changes nothing else. -/
theorem markAgainst_eq (genre : GenreDoc) (bookGenres : List Genre) :
    markAgainst genre bookGenres
      = if ∃ bg ∈ bookGenres, genre._id = bg._id then { genre with checked := some "true" }
        else genre := by
  induction bookGenres generalizing genre with
  | nil => simp [markAgainst]
  | cons bg more ih =>
    rw [markAgainst, ih]
    by_cases h1 : genre._id = bg._id
    · simp [h1]
    · simp [h1]

/-- A lookup by identifier returns a record carrying that identifier, taken from the
collection. -/
theorem findGenre_some {db : Db} {id : String} {g : Genre} (h : findGenre db id = some g) :
    g ∈ db.genres ∧ g._id = id := by
  unfold findGenre at h
  exact ⟨List.mem_of_find?_eq_some h, by simpa using List.find?_some h⟩

/-- A lookup by the identifier of a stored Genre finds a Genre. -/
theorem findGenre_of_mem {db : Db} {g : Genre} (h : g ∈ db.genres) :
    ∃ k, findGenre db g._id = some k := by
  unfold findGenre
  cases hf : db.genres.find? (fun k => k._id == g._id) with
  | some k => exact ⟨k, rfl⟩
  | none =>
    rw [List.find?_eq_none] at hf
    exact absurd (by simp) (hf g h)

/-- With a value that is not empty after trimming the chain records no error. -/
theorem requiredChain_valid (field msg raw : String) (h : 1 ≤ (trim raw).length) :
    requiredChain field msg raw = (escape (trim raw), []) := by
  simp [requiredChain, h]

/-- With a value that is empty after trimming the chain records exactly one error. -/
theorem requiredChain_invalid (field msg raw : String) (h : ¬ 1 ≤ (trim raw).length) :
    requiredChain field msg raw
      = (escape (trim raw), [{ value := trim raw, msg := msg, param := field }]) := by
  simp [requiredChain, h]

/-- What `genre_create_post` does with a valid name, by the outcome of its calls. -/
theorem genre_create_post_valid (env : Env) (faults : Faults) (newId name : String) (db : Db)
    (h : 1 ≤ (trim name).length) :
    genre_create_post env faults newId name db =
      match faults "Genre.findOne" with
      | some err => ([.next err], db)
      | none =>
        match db.genres.find? (fun g => g.name == escape (trim name)) with
        | some found => ([.redirect (env.genreUrl found._id)], db)
        | none =>
          match faults "genre.save" with
          | some err => ([.next err], db)
          | none =>
            ([.redirect (env.genreUrl newId)],
              { db with genres := db.genres ++ [{ _id := newId, name := escape (trim name) }] }) := by
  simp only [genre_create_post, requiredChain_valid _ _ _ h]
  cases h1 : faults "Genre.findOne" with
  | some e => simp [query]
  | none =>
    cases h2 : db.genres.find? (fun g => g.name == escape (trim name)) with
    | some g => simp [query]
    | none =>
      cases h3 : faults "genre.save" <;> simp [query]

/-- The write of `findByIdAndUpdate` keeps the identifiers of the collection, in order. -/
theorem updateById_ids (id : String) (book : BookDoc) (hid : book._id = id) (l : List Book) :
    (updateById id book l).map (fun b => b._id) = l.map (fun b => b._id) := by
  induction l with
  | nil => rfl
  | cons b bs ih =>
    by_cases h : b._id = id
    · simp [updateById, applyUpdate, h, hid]
    · simp [updateById, h, ih]

/-- After the write of `findByIdAndUpdate`, the lookup by that identifier returns the Book
that was stored under it, with the update applied. -/
theorem find_updateById (id : String) (book : BookDoc) (hid : book._id = id) (l : List Book)
    (b0 : Book) (h : l.find? (fun b => b._id == id) = some b0) :
    (updateById id book l).find? (fun b => b._id == id) = some (applyUpdate book b0) := by
  induction l with
  | nil => simp at h
  | cons b bs ih =>
    by_cases hb : b._id = id
    · have hbb : b = b0 := by
        rw [List.find?_cons_of_pos _ (by simpa using hb)] at h
        exact Option.some.inj h
      subst hbb
      simp [updateById, applyUpdate, hb, hid]
    · have h2 : bs.find? (fun b => b._id == id) = some b0 := by
        rw [List.find?_cons_of_neg _ (by simpa using hb)] at h
        exact h
      simp [updateById, hb, ih h2]

/-- The validation chains of the Book form on a body whose four string fields are not empty
after trimming. -/
theorem book_validate_valid (body : ReqBody BookFields)
    (htitle : 1 ≤ (trim body.rest.title).length) (hauthor : 1 ≤ (trim body.rest.author).length)
    (hsummary : 1 ≤ (trim body.rest.summary).length) (hisbn : 1 ≤ (trim body.rest.isbn).length) :
    book_validate body =
      ({ genre := escapeEach body.genre,
         rest := { title := escape (trim body.rest.title),
                   author := escape (trim body.rest.author),
                   summary := escape (trim body.rest.summary),
                   isbn := escape (trim body.rest.isbn) } }, []) := by
  simp [book_validate, requiredChain_valid, htitle, hauthor, hsummary, hisbn]

/-- A required-field chain records one error under its own field name when the value is
empty after trimming, and none otherwise or under any other name. -/
theorem countFor_requiredChain (field msg raw other : String) :
    countFor (requiredChain field msg raw).2 other
      = if field = other ∧ ¬ 1 ≤ (trim raw).length then 1 else 0 := by
  by_cases h : 1 ≤ (trim raw).length
  · simp [countFor, requiredChain, h]
  · by_cases h2 : field = other <;> simp [countFor, requiredChain, h, h2]

theorem countFor_append (xs ys : List ValidationError) (field : String) :
    countFor (xs ++ ys) field = countFor xs field + countFor ys field := by
  simp [countFor]

/-! ## The claims -/

/-- C8: the first step of `book_create_post` and of `book_update_post` leaves `req.body.genre`
an array: empty when `genre` was absent, the one-element array `[g]` when it was a single
value `g`, the same array when it was one already; every other key of the body (`rest`) is
as it was, and the step calls `next()` and nothing else. -/
theorem toArray_normalizes_genre {ρ : Type} (rest : ρ) :
    (book_create_post_toArray { genre := .undefined, rest := rest }
        = ({ genre := .array [], rest := rest }, [.nextStep])
      ∧ (∀ g, book_create_post_toArray { genre := .scalar g, rest := rest }
        = ({ genre := .array [g], rest := rest }, [.nextStep]))
      ∧ (∀ gs, book_create_post_toArray { genre := .array gs, rest := rest }
        = ({ genre := .array gs, rest := rest }, [.nextStep])))
    ∧ (book_update_post_toArray { genre := .undefined, rest := rest }
        = ({ genre := .array [], rest := rest }, [.nextStep])
      ∧ (∀ g, book_update_post_toArray { genre := .scalar g, rest := rest }
        = ({ genre := .array [g], rest := rest }, [.nextStep]))
      ∧ (∀ gs, book_update_post_toArray { genre := .array gs, rest := rest }
        = ({ genre := .array gs, rest := rest }, [.nextStep]))) :=
  ⟨⟨rfl, fun _ => rfl, fun _ => rfl⟩, ⟨rfl, fun _ => rfl, fun _ => rfl⟩⟩

/-- C5: in `book_detail`, `bookinstance_detail` and `genre_detail`, when the queries of the
handler succeed and the lookup by `req.params.id` finds no record, the handler makes exactly
one call, `next(err)` with `err.status = 404`; in particular it renders no view. -/
theorem detail_missing_is_404 (faults : Faults) (id : String) (db : Db) :
    (faults "Book.findById" = none → faults "BookInstance.find" = none →
        findBook db id = none →
        book_detail faults id db = [.next { message := "Book not found", status := some 404 }])
    ∧ (faults "BookInstance.findById" = none → findInstance db id = none →
        bookinstance_detail faults id db
          = [.next { message := "Book copy not found", status := some 404 }])
    ∧ (faults "Genre.findById" = none → faults "Book.find" = none →
        findGenre db id = none →
        genre_detail faults id db
          = [.next { message := "Genre not found", status := some 404 }]) := by
  refine ⟨?_, ?_, ?_⟩
  · intro h1 h2 h3
    simp [book_detail, h1, h2, h3, query, thenCallback, parallel2, notFound]
  · intro h1 h2
    simp [bookinstance_detail, h1, h2, query, notFound]
  · intro h1 h2 h3
    simp [genre_detail, h1, h2, h3, query, thenCallback, parallel2, notFound]

/-- Witness for C5: the identifier of no record, in the sample database. -/
theorem detail_missing_is_404_witness :
    book_detail noFaults "ffffffffffffffffffffffff" sampleDb
        = [.next { message := "Book not found", status := some 404 }]
    ∧ bookinstance_detail noFaults "ffffffffffffffffffffffff" sampleDb
        = [.next { message := "Book copy not found", status := some 404 }]
    ∧ genre_detail noFaults "ffffffffffffffffffffffff" sampleDb
        = [.next { message := "Genre not found", status := some 404 }] :=
  ⟨(detail_missing_is_404 noFaults "ffffffffffffffffffffffff" sampleDb).1 rfl rfl (by decide),
   (detail_missing_is_404 noFaults "ffffffffffffffffffffffff" sampleDb).2.1 rfl (by decide),
   (detail_missing_is_404 noFaults "ffffffffffffffffffffffff" sampleDb).2.2 rfl rfl (by decide)⟩

/-- C6 at a failing input: a delete-confirmation GET for an identifier that matches no
record. Each of the three handlers calls `res.redirect` to the list page and then, the
`return` being absent, goes on to call `res.render` of the confirmation page with a missing
record. -/
theorem delete_get_missing_redirects_then_renders :
    book_delete_get noFaults "ffffffffffffffffffffffff" sampleDb
        = [.redirect "/catalog/books",
           .render "book_delete" (.bookDelete "Delete Book" none [])]
    ∧ genre_delete_get noFaults "ffffffffffffffffffffffff" sampleDb
        = [.redirect "/catalog/genres",
           .render "genre_delete" (.genreDelete "Delete Genre" none [])]
    ∧ bookinstance_delete_get noFaults "ffffffffffffffffffffffff" sampleDb
        = [.redirect "/catalog/instances",
           .render "bookinstance_delete" (.instanceDelete "Delete Instance" none)] := by
  refine ⟨?_, ?_, ?_⟩ <;> decide

/-- The fall-through of the delete-confirmation handlers in general: whenever the queries
succeed and the lookup finds nothing, the redirect is followed by a render. -/
theorem delete_get_missing_calls (faults : Faults) (id : String) (db : Db) :
    (faults "Book.findById" = none → faults "BookInstance.find" = none →
        findBook db id = none →
        book_delete_get faults id db
          = [.redirect "/catalog/books",
             .render "book_delete" (.bookDelete "Delete Book" none (instancesOfBook db id))])
    ∧ (faults "Genre.findById" = none → faults "Book.find" = none →
        findGenre db id = none →
        genre_delete_get faults id db
          = [.redirect "/catalog/genres",
             .render "genre_delete" (.genreDelete "Delete Genre" none (booksOfGenre db id))])
    ∧ (faults "BookInstance.findById" = none → findInstance db id = none →
        bookinstance_delete_get faults id db
          = [.redirect "/catalog/instances",
             .render "bookinstance_delete" (.instanceDelete "Delete Instance" none)]) := by
  refine ⟨?_, ?_, ?_⟩
  · intro h1 h2 h3
    simp [book_delete_get, h1, h2, h3, query, thenCallback, parallel2]
  · intro h1 h2 h3
    simp [genre_delete_get, h1, h2, h3, query, thenCallback, parallel2]
  · intro h1 h2
    simp [bookinstance_delete_get, h1, h2, query]

/-- C9 at a failing input: the lookup by identifier rejects with an error `e` (here a cast
error for a malformed identifier). `book_detail` and `genre_detail` make no call at all: the
task never reports to `async.parallel`, so `if (err) return next(err)` is never reached.
`bookinstance_detail`, whose promise has a `.catch`, forwards `e` to `next`. -/
theorem detail_fetch_error_not_forwarded :
    book_detail (failing "Book.findById" castError) "not-an-id" sampleDb = []
    ∧ genre_detail (failing "Genre.findById" castError) "not-an-id" sampleDb = []
    ∧ bookinstance_detail (failing "BookInstance.findById" castError) "not-an-id" sampleDb
        = [.next castError] := by
  refine ⟨?_, ?_, ?_⟩ <;> decide

/-- The loss of a fetch error in general: whichever query of `book_detail` or `genre_detail`
rejects, and whatever the other does, the handler never calls `next` with an error coming
from a query; it makes no call unless both queries resolve. -/
theorem detail_fetch_error_silent (faults : Faults) (id : String) (db : Db) (e : Err) :
    (faults "Book.findById" = some e ∨ faults "BookInstance.find" = some e →
        book_detail faults id db = [])
    ∧ (faults "Genre.findById" = some e ∨ faults "Book.find" = some e →
        genre_detail faults id db = [])
    ∧ (faults "BookInstance.findById" = some e →
        bookinstance_detail faults id db = [.next e]) := by
  refine ⟨?_, ?_, ?_⟩
  · rintro (h | h)
    · cases h2 : faults "BookInstance.find" <;>
        simp [book_detail, h, h2, query, thenCallback, parallel2]
    · cases h1 : faults "Book.findById" <;>
        simp [book_detail, h, h1, query, thenCallback, parallel2]
  · rintro (h | h)
    · cases h2 : faults "Book.find" <;>
        simp [genre_detail, h, h2, query, thenCallback, parallel2]
    · cases h1 : faults "Genre.findById" <;>
        simp [genre_detail, h, h1, query, thenCallback, parallel2]
  · intro h
    simp [bookinstance_detail, h, query]

/-- C7 as stated fails: on the sample database `bookinstance_list` renders the copies in
stored order, which is ascending neither by the title of the populated book, nor by imprint,
nor by status, nor by identifier. -/
theorem bookinstance_list_unsorted :
    ∃ l, bookinstance_list noFaults sampleDb
        = [.render "bookinstance_list" (.instanceList "Book Instance List" l)]
      ∧ ¬ l.Sorted (fun a b =>
            keyLe ((a.book.map (fun k => k.title)).getD "") ((b.book.map (fun k => k.title)).getD ""))
      ∧ ¬ l.Sorted (fun a b => keyLe a.imprint b.imprint)
      ∧ ¬ l.Sorted (fun a b => keyLe a.status b.status)
      ∧ ¬ l.Sorted (fun a b => keyLe a._id b._id) :=
  ⟨_, rfl, by decide, by decide, by decide, by decide⟩

/-- C7 as amended: when the query succeeds, `book_list` renders the Books in ascending order
of title and `genre_list` renders the Genres in ascending order of name, the same records
as stored and the same sequence of keys whatever the stored order; `bookinstance_list`
renders the copies in stored order, unsorted. -/
theorem list_views_order (db : Db) :
    (∃ l, book_list noFaults db = [.render "book_list" (.bookList "Book List" l)]
        ∧ l.Sorted (fun a b => keyLe a.title b.title)
        ∧ (l.map (fun b => b._id)).Perm (db.books.map (fun b => b._id))
        ∧ ∀ db2 : Db, db2.books.Perm db.books →
            ∃ l2, book_list noFaults db2 = [.render "book_list" (.bookList "Book List" l2)]
              ∧ l2.map (fun b => b.title) = l.map (fun b => b.title))
    ∧ (∃ l, genre_list noFaults db = [.render "genre_list.pug" (.genreList "Genre List" l)]
        ∧ l.Sorted (fun a b => keyLe a.name b.name)
        ∧ l.Perm db.genres
        ∧ ∀ db2 : Db, db2.genres.Perm db.genres →
            ∃ l2, genre_list noFaults db2
                = [.render "genre_list.pug" (.genreList "Genre List" l2)]
              ∧ l2.map (fun g => g.name) = l.map (fun g => g.name))
    ∧ bookinstance_list noFaults db
        = [.render "bookinstance_list"
            (.instanceList "Book Instance List" (db.instances.map (populateInstance db)))] := by
  refine ⟨⟨_, rfl, ?_, ?_, ?_⟩, ⟨_, rfl, ?_, ?_, ?_⟩, rfl⟩
  · exact List.Pairwise.map _ (fun _ _ h => h) (sortByKey_sorted (fun b : Book => b.title) db.books)
  · rw [List.map_map]
    exact (List.perm_insertionSort _ db.books).map _
  · intro db2 h
    refine ⟨_, rfl, ?_⟩
    simp only [List.map_map]
    exact sortByKey_keys_of_perm (fun b : Book => b.title) h
  · exact sortByKey_sorted (fun g : Genre => g.name) db.genres
  · exact List.perm_insertionSort _ db.genres
  · intro db2 h
    exact ⟨_, rfl, sortByKey_keys_of_perm (fun g : Genre => g.name) h⟩

/-- Witness for C7 as amended: the sample database and the same database with its books and
genres stored in the opposite order. -/
theorem list_views_order_witness :
    ∃ l2, book_list noFaults { sampleDb with books := sampleDb.books.reverse }
        = [.render "book_list" (.bookList "Book List" l2)]
      ∧ l2.map (fun b => b.title) = ["A Wizard of Earthsea", "The Dispossessed"] := by
  obtain ⟨l, hl, -, -, h⟩ := (list_views_order sampleDb).1
  obtain ⟨l2, h2, h3⟩ := h { sampleDb with books := sampleDb.books.reverse }
    (List.reverse_perm _)
  refine ⟨l2, h2, ?_⟩
  rw [h3]
  have : l = [{ _id := "bbbbbbbbbbbbbbbbbbbbbb01", title := "A Wizard of Earthsea",
                author := some { _id := "aaaaaaaaaaaaaaaaaaaaaaa1", name := "Le Guin" } },
              { _id := "bbbbbbbbbbbbbbbbbbbbbb02", title := "The Dispossessed",
                author := some { _id := "aaaaaaaaaaaaaaaaaaaaaaa1", name := "Le Guin" } }] := by
    have h0 : book_list noFaults sampleDb = [.render "book_list" (.bookList "Book List"
        [{ _id := "bbbbbbbbbbbbbbbbbbbbbb01", title := "A Wizard of Earthsea",
           author := some { _id := "aaaaaaaaaaaaaaaaaaaaaaa1", name := "Le Guin" } },
         { _id := "bbbbbbbbbbbbbbbbbbbbbb02", title := "The Dispossessed",
           author := some { _id := "aaaaaaaaaaaaaaaaaaaaaaa1", name := "Le Guin" } }])] := by
      decide
    rw [h0] at hl
    simpa using hl.symm
  rw [this]
  rfl

/-- C10: in `book_update_get`, for an existing book and with the three queries succeeding,
the form is rendered with a genre list that has the elements of the fetched list in the same
order (same identifiers and names), and a genre of it is marked `checked` if and only if its
identifier equals the identifier of some genre in the book's populated genre set, which is
the case if and only if its identifier is among the book's stored genre references. -/
theorem book_update_get_marks_checked (faults : Faults) (id : String) (db : Db) (b : Book)
    (hbook : faults "Book.findById" = none) (hauthors : faults "Author.find" = none)
    (hgenres : faults "Genre.find" = none) (hfound : findBook db id = some b) :
    ∃ genres,
      book_update_get faults id db
        = [.render "book_form"
            (.bookFormUpdate "Update Book" db.authors genres (populateBook db b))]
      ∧ genres.map (fun g => (g._id, g.name)) = db.genres.map (fun g => (g._id, g.name))
      ∧ (∀ g ∈ genres, g.checked = some "true" ∨ g.checked = none)
      ∧ (∀ g ∈ genres,
          (g.checked = some "true" ↔ ∃ bg ∈ (populateBook db b).genre, g._id = bg._id))
      ∧ (∀ g ∈ genres, (g.checked = some "true" ↔ g._id ∈ b.genre)) := by
  have hpop : ∀ g : Genre, g ∈ db.genres →
      ((∃ bg ∈ (populateBook db b).genre, g._id = bg._id) ↔ g._id ∈ b.genre) := by
    intro g hg
    simp only [populateBook, populateGenres, List.mem_filterMap]
    constructor
    · rintro ⟨bg, ⟨i, hi, hfind⟩, heq⟩
      rw [heq, (findGenre_some hfind).2]
      exact hi
    · intro hmem
      obtain ⟨k, hk⟩ := findGenre_of_mem hg
      exact ⟨k, ⟨g._id, hmem, hk⟩, (findGenre_some hk).2.symm⟩
  refine ⟨markSelected (genreDocs db) (populateBook db b).genre, ?_, ?_, ?_, ?_, ?_⟩
  · simp [book_update_get, hbook, hauthors, hgenres, hfound, query, thenCallback, parallel3]
  · simp only [markSelected, genreDocs, List.map_map]
    apply List.map_congr_left
    intro g _
    simp only [Function.comp, markAgainst_eq]
    split <;> rfl
  · intro g hg
    simp only [markSelected, genreDocs, List.map_map, List.mem_map] at hg
    obtain ⟨k, _, rfl⟩ := hg
    simp only [Function.comp, markAgainst_eq]
    split <;> simp
  · intro g hg
    simp only [markSelected, genreDocs, List.map_map, List.mem_map] at hg
    obtain ⟨k, _, rfl⟩ := hg
    simp only [Function.comp, markAgainst_eq]
    split
    · next h => simpa using h
    · next h => simpa using h
  · intro g hg
    simp only [markSelected, genreDocs, List.map_map, List.mem_map] at hg
    obtain ⟨k, hk, rfl⟩ := hg
    simp only [Function.comp, markAgainst_eq]
    have := hpop k hk
    split
    · next h => simpa using this.1 h
    · next h => simpa using fun hm => h (this.2 hm)

/-- Witness for C10: the update form of the second sample book; of the two genres only
"Fantasy" is marked. -/
theorem book_update_get_marks_checked_witness :
    ∃ genres,
      book_update_get noFaults "bbbbbbbbbbbbbbbbbbbbbb01" sampleDb
        = [.render "book_form"
            (.bookFormUpdate "Update Book" sampleDb.authors genres
              (populateBook sampleDb
                { _id := "bbbbbbbbbbbbbbbbbbbbbb01", title := "A Wizard of Earthsea",
                  author := "aaaaaaaaaaaaaaaaaaaaaaa1", summary := "Ged and the shadow",
                  isbn := "9780547773742", genre := ["cccccccccccccccccccccc01"] }))]
      ∧ (∀ g ∈ genres, (g.checked = some "true" ↔ g._id ∈ ["cccccccccccccccccccccc01"])) := by
  obtain ⟨genres, h1, -, -, -, h5⟩ :=
    book_update_get_marks_checked noFaults "bbbbbbbbbbbbbbbbbbbbbb01" sampleDb
      { _id := "bbbbbbbbbbbbbbbbbbbbbb01", title := "A Wizard of Earthsea",
        author := "aaaaaaaaaaaaaaaaaaaaaaa1", summary := "Ged and the shadow",
        isbn := "9780547773742", genre := ["cccccccccccccccccccccc01"] }
      rfl rfl rfl (by decide)
  exact ⟨genres, h1, h5⟩

/-- C1: for every database and every submitted name that passes validation, two runs of
`genre_create_post` in sequence with that name (the queries succeeding) add at most one Genre
in total: there is a Genre `g` carrying the sanitized name, found or created by the first
run, to whose url the first run redirects; the second run leaves the database exactly as the
first run left it and redirects to the url of the same `g`. Whatever calls fail in either
run, the database after both runs is the initial one or the initial one plus one Genre. -/
theorem genre_create_post_idempotent (env : Env) (id1 id2 name : String) (db : Db)
    (hvalid : 1 ≤ (trim name).length) :
    (∃ g : Genre,
      g.name = escape (trim name)
      ∧ (genre_create_post env noFaults id1 name db).1 = [.redirect (env.genreUrl g._id)]
      ∧ ((genre_create_post env noFaults id1 name db).2 = db
          ∨ (genre_create_post env noFaults id1 name db).2
              = { db with genres := db.genres ++ [g] })
      ∧ (genre_create_post env noFaults id1 name db).2.genres.find?
          (fun k => k.name == escape (trim name)) = some g
      ∧ genre_create_post env noFaults id2 name (genre_create_post env noFaults id1 name db).2
          = ([.redirect (env.genreUrl g._id)], (genre_create_post env noFaults id1 name db).2))
    ∧ ∀ f1 f2 : Faults,
        (genre_create_post env f2 id2 name (genre_create_post env f1 id1 name db).2).2 = db
        ∨ ∃ g : Genre,
          (genre_create_post env f2 id2 name (genre_create_post env f1 id1 name db).2).2
            = { db with genres := db.genres ++ [g] } := by
  constructor
  · rw [genre_create_post_valid env noFaults id1 name db hvalid]
    simp only [noFaults]
    cases h2 : db.genres.find? (fun g => g.name == escape (trim name)) with
    | some g =>
      refine ⟨g, by simpa using List.find?_some h2, rfl, Or.inl rfl, h2, ?_⟩
      rw [genre_create_post_valid env _ id2 name db hvalid]
      simp [h2, noFaults]
    | none =>
      refine ⟨{ _id := id1, name := escape (trim name) }, rfl, rfl, Or.inr rfl, ?_, ?_⟩
      · simp [List.find?_append, h2]
      · rw [genre_create_post_valid env _ id2 name _ hvalid]
        simp [List.find?_append, h2, noFaults]
  · intro f1 f2
    rw [genre_create_post_valid env f1 id1 name db hvalid]
    cases h1 : f1 "Genre.findOne" with
    | some e =>
      simp only
      rw [genre_create_post_valid env f2 id2 name db hvalid]
      cases f2 "Genre.findOne" <;> cases db.genres.find? (fun g => g.name == escape (trim name))
        <;> cases f2 "genre.save" <;> simp
    | none =>
      cases h2 : db.genres.find? (fun g => g.name == escape (trim name)) with
      | some g =>
        simp only
        rw [genre_create_post_valid env f2 id2 name db hvalid, h2]
        cases f2 "Genre.findOne" <;> simp
      | none =>
        cases h3 : f1 "genre.save" with
        | some e =>
          simp only
          rw [genre_create_post_valid env f2 id2 name db hvalid, h2]
          cases f2 "Genre.findOne" <;> cases f2 "genre.save" <;> simp
        | none =>
          simp only
          rw [genre_create_post_valid env f2 id2 name _ hvalid]
          cases f2 "Genre.findOne" <;> simp [List.find?_append, h2]

/-- Witness for C1: the name " Horror " submitted twice to the sample database. -/
theorem genre_create_post_idempotent_witness :
    1 ≤ (trim " Horror ").length
    ∧ ∃ g : Genre,
      g.name = escape (trim " Horror ")
      ∧ genre_create_post sampleEnv noFaults "cccccccccccccccccccccc04" " Horror "
          (genre_create_post sampleEnv noFaults "cccccccccccccccccccccc03" " Horror " sampleDb).2
        = ([.redirect (sampleEnv.genreUrl g._id)],
           (genre_create_post sampleEnv noFaults "cccccccccccccccccccccc03" " Horror "
              sampleDb).2) := by
  refine ⟨by decide, ?_⟩
  obtain ⟨g, h1, -, -, -, h5⟩ :=
    (genre_create_post_idempotent sampleEnv "cccccccccccccccccccccc03"
      "cccccccccccccccccccccc04" " Horror " sampleDb (by decide)).1
  exact ⟨g, h1, h5⟩

/-- C4 as stated fails: the second sample book is updated with the new title
"Earthsea & Beyond", which passes validation; the lookup of the book afterwards returns the
title "Earthsea &amp; Beyond", the escaped form, not the submitted title. -/
theorem book_update_post_title_escaped :
    1 ≤ (trim "Earthsea & Beyond").length
    ∧ findBook (book_update_post sampleEnv noFaults "bbbbbbbbbbbbbbbbbbbbbb01"
        { genre := .array ["cccccccccccccccccccccc01"],
          rest := { title := "Earthsea & Beyond", author := "aaaaaaaaaaaaaaaaaaaaaaa1",
                    summary := "Ged and the shadow", isbn := "9780547773742" } } sampleDb).2
        "bbbbbbbbbbbbbbbbbbbbbb01"
      = some { _id := "bbbbbbbbbbbbbbbbbbbbbb01", title := "Earthsea &amp; Beyond",
               author := "aaaaaaaaaaaaaaaaaaaaaaa1", summary := "Ged and the shadow",
               isbn := "9780547773742", genre := ["cccccccccccccccccccccc01"] }
    ∧ "Earthsea &amp; Beyond" ≠ "Earthsea & Beyond" := by
  refine ⟨by decide, by decide, by decide⟩

/-- C4 as amended: for every database that contains a Book with identifier `X` and every
`book_update_post` submission to `X` that passes validation with new title `T`, when the
update call succeeds: the response is a redirect to the detail url of `X`; a subsequent
lookup of `X` returns a Book whose identifier is `X` and whose title is the trimmed and
escaped form of `T`; the identifiers of the Book collection are the same, in the same order,
so no Book with a new identifier has been added; the other collections are untouched. -/
theorem book_update_post_roundtrip (env : Env) (faults : Faults) (X : String)
    (body : ReqBody BookFields) (db : Db)
    (hX : ∃ b ∈ db.books, b._id = X)
    (htitle : 1 ≤ (trim body.rest.title).length) (hauthor : 1 ≤ (trim body.rest.author).length)
    (hsummary : 1 ≤ (trim body.rest.summary).length) (hisbn : 1 ≤ (trim body.rest.isbn).length)
    (hok : faults "Book.findByIdAndUpdate" = none) :
    (book_update_post env faults X body db).1 = [.redirect (env.bookUrl X)]
    ∧ (∃ b, findBook (book_update_post env faults X body db).2 X = some b
        ∧ b._id = X ∧ b.title = escape (trim body.rest.title))
    ∧ (book_update_post env faults X body db).2.books.map (fun b => b._id)
        = db.books.map (fun b => b._id)
    ∧ (book_update_post env faults X body db).2.authors = db.authors
    ∧ (book_update_post env faults X body db).2.genres = db.genres
    ∧ (book_update_post env faults X body db).2.instances = db.instances := by
  obtain ⟨b0, hb0⟩ : ∃ b0, findBook db X = some b0 := by
    unfold findBook
    cases hf : db.books.find? (fun b => b._id == X) with
    | some k => exact ⟨k, rfl⟩
    | none =>
      rw [List.find?_eq_none] at hf
      obtain ⟨b, hb, hb2⟩ := hX
      exact absurd (by simp [hb2]) (hf b hb)
  have hb0id : b0._id = X := by
    unfold findBook at hb0
    simpa using List.find?_some hb0
  have hrest : (book_update_post_toArray body).1.rest = body.rest := by
    cases hg : body.genre <;> simp [book_update_post_toArray, hg]
  have hval := book_validate_valid (book_update_post_toArray body).1
    (by rw [hrest]; exact htitle) (by rw [hrest]; exact hauthor)
    (by rw [hrest]; exact hsummary) (by rw [hrest]; exact hisbn)
  obtain ⟨doc, hdoc, hdocid, hdoctitle⟩ : ∃ doc : BookDoc,
      book_update_post env faults X body db
        = ([.redirect (env.bookUrl X)], { db with books := updateById X doc db.books })
      ∧ doc._id = X ∧ doc.title = escape (trim body.rest.title) := by
    refine ⟨newBook env X (book_validate (book_update_post_toArray body).1).1.rest
      (match (book_validate (book_update_post_toArray body).1).1.genre with
        | .undefined => []
        | g => castGenre g), ?_, rfl, ?_⟩
    · unfold book_update_post
      rw [show book_update_post_toArray body
          = ((book_update_post_toArray body).1, [.nextStep]) from rfl]
      simp only [book_update_post_final, hval, List.isEmpty_nil, hok, query, hb0, hb0id]
      simp
    · simp [hval, newBook, hrest]
  rw [hdoc]
  refine ⟨rfl, ⟨applyUpdate doc b0, ?_, ?_, ?_⟩, ?_, rfl, rfl, rfl⟩
  · exact find_updateById X doc hdocid db.books b0 hb0
  · simp [applyUpdate, hdocid]
  · simp [applyUpdate, hdoctitle]
  · exact updateById_ids X doc hdocid db.books

/-- Witness for C4 as amended: the second sample book retitled " Earthsea <I> "; the lookup
afterwards returns the book under the same identifier with the title
"Earthsea &lt;I&gt;". -/
theorem book_update_post_roundtrip_witness :
    (∃ b ∈ sampleDb.books, b._id = "bbbbbbbbbbbbbbbbbbbbbb01")
    ∧ ∃ b, findBook (book_update_post sampleEnv noFaults "bbbbbbbbbbbbbbbbbbbbbb01"
        { genre := .scalar "cccccccccccccccccccccc01",
          rest := { title := " Earthsea <I> ", author := "aaaaaaaaaaaaaaaaaaaaaaa1",
                    summary := "Ged", isbn := "9780547773742" } } sampleDb).2
          "bbbbbbbbbbbbbbbbbbbbbb01" = some b
      ∧ b._id = "bbbbbbbbbbbbbbbbbbbbbb01" ∧ b.title = "Earthsea &lt;I&gt;" := by
  have hX : ∃ b ∈ sampleDb.books, b._id = "bbbbbbbbbbbbbbbbbbbbbb01" :=
    ⟨_, List.mem_cons_of_mem _ (List.mem_cons_self _ _), rfl⟩
  obtain ⟨b, h1, h2, h3⟩ :=
    (book_update_post_roundtrip sampleEnv noFaults "bbbbbbbbbbbbbbbbbbbbbb01"
      { genre := .scalar "cccccccccccccccccccccc01",
        rest := { title := " Earthsea <I> ", author := "aaaaaaaaaaaaaaaaaaaaaaa1",
                  summary := "Ged", isbn := "9780547773742" } } sampleDb
      hX (by decide) (by decide) (by decide) (by decide) rfl).2.1
  exact ⟨hX, b, h1, h2, by rw [h3]; decide⟩

/-- C2 as stated fails, at three submissions to the sample database whose fields all pass
validation (every storage call succeeding). A Genre named "Fantasy" exists:
`genre_create_post` with the name "Fantasy" saves no record and redirects to the existing
one. The author "Le Guin" is no identifier: `book_create_post` saves nothing and forwards the
`ValidationError` of `save` to `next`. The book "not-an-id" is no identifier:
`bookinstance_create_post` saves nothing and forwards the `ValidationError` of `save`. -/
theorem create_post_not_always_saved :
    (1 ≤ (trim "Fantasy").length
      ∧ genre_create_post sampleEnv noFaults "cccccccccccccccccccccc03" "Fantasy" sampleDb
          = ([.redirect "/catalog/genre/cccccccccccccccccccccc01"], sampleDb))
    ∧ ((book_validate (book_create_post_toArray
            { genre := .undefined,
              rest := { title := "Tehanu", author := "Le Guin",
                        summary := "The last book", isbn := "9780689845338" } }).1).2 = []
      ∧ ∃ err, book_create_post sampleEnv noFaults "bbbbbbbbbbbbbbbbbbbbbb03"
            { genre := .undefined,
              rest := { title := "Tehanu", author := "Le Guin",
                        summary := "The last book", isbn := "9780689845338" } } sampleDb
          = ([.next err], sampleDb))
    ∧ ((bookinstance_validate sampleEnv
            { book := "not-an-id", imprint := "Gollancz, 2004",
              status := "Available", due_back := "" }).2 = []
      ∧ ∃ err, bookinstance_create_post sampleEnv noFaults "dddddddddddddddddddddd03"
            { book := "not-an-id", imprint := "Gollancz, 2004",
              status := "Available", due_back := "" } sampleDb
          = ([.next err], sampleDb)) := by
  refine ⟨⟨by decide, by decide⟩, ⟨by decide, validationError "Book", by decide⟩,
    ⟨by decide, validationError "BookInstance", by decide⟩⟩

/-- C2 as amended: for every create submission whose fields all pass validation and whose
save succeeds (its reference fields cast to identifiers and the storage call does not fail),
a record is saved and the response is a redirect to that record's url: `book_create_post`
saves a Book whose title, summary and isbn are the trimmed and escaped submitted values and
whose author is the identifier the trimmed and escaped value casts to;
`bookinstance_create_post` saves a BookInstance whose imprint is the trimmed and escaped
value and whose book is the identifier the trimmed and escaped value casts to.
`genre_create_post` (its two calls succeeding) saves a Genre with the trimmed and escaped
name and redirects to its url when no Genre carries that name, and otherwise saves nothing
and redirects to the url of the Genre that carries it. -/
theorem create_post_valid_saves (env : Env) (faults : Faults) (newId : String) (db : Db) :
    (∀ (body : ReqBody BookFields) (author : String) (genre : List String),
        1 ≤ (trim body.rest.title).length → 1 ≤ (trim body.rest.author).length →
        1 ≤ (trim body.rest.summary).length → 1 ≤ (trim body.rest.isbn).length →
        env.castObjectId (escape (trim body.rest.author)) = some author →
        castRefs env ((castGenre body.genre).map escape) = some genre →
        faults "book.save" = none →
        ∃ saved : Book,
          book_create_post env faults newId body db
            = ([.redirect (env.bookUrl saved._id)],
               { db with books := db.books ++ [saved] })
          ∧ saved._id = newId
          ∧ saved.title = escape (trim body.rest.title)
          ∧ saved.author = author
          ∧ saved.summary = escape (trim body.rest.summary)
          ∧ saved.isbn = escape (trim body.rest.isbn))
    ∧ (∀ (body : InstanceBody) (book : String),
        1 ≤ (trim body.book).length → 1 ≤ (trim body.imprint).length →
        (body.due_back = "" ∨ env.isISO8601 body.due_back = true) →
        castRef env (escape (trim body.book)) = some book →
        faults "bookinstance.save" = none →
        ∃ saved : BookInstance,
          bookinstance_create_post env faults newId body db
            = ([.redirect (env.instanceUrl saved._id)],
               { db with instances := db.instances ++ [saved] })
          ∧ saved._id = newId
          ∧ saved.book = some book
          ∧ saved.imprint = escape (trim body.imprint))
    ∧ (∀ name : String,
        1 ≤ (trim name).length →
        faults "Genre.findOne" = none → faults "genre.save" = none →
        (db.genres.find? (fun g => g.name == escape (trim name)) = none →
          genre_create_post env faults newId name db
            = ([.redirect (env.genreUrl newId)],
               { db with genres := db.genres ++ [{ _id := newId, name := escape (trim name) }] }))
        ∧ (∀ found, db.genres.find? (fun g => g.name == escape (trim name)) = some found →
          genre_create_post env faults newId name db
            = ([.redirect (env.genreUrl found._id)], db))) := by
  refine ⟨?_, ?_, ?_⟩
  · intro body author genre h1 h2 h3 h4 hauthor hgenre hsave
    have hrest : (book_create_post_toArray body).1.rest = body.rest := by
      cases hg : body.genre <;> simp [book_create_post_toArray, hg]
    have hg2 : castGenre (escapeEach (book_create_post_toArray body).1.genre)
        = (castGenre body.genre).map escape := by
      cases hg : body.genre <;> simp [book_create_post_toArray, hg, escapeEach, castGenre]
    have hval := book_validate_valid (book_create_post_toArray body).1
      (by rw [hrest]; exact h1) (by rw [hrest]; exact h2)
      (by rw [hrest]; exact h3) (by rw [hrest]; exact h4)
    refine ⟨{ _id := newId, title := escape (trim body.rest.title), author := author,
              summary := escape (trim body.rest.summary),
              isbn := escape (trim body.rest.isbn), genre := genre }, ?_, rfl, rfl, rfl, rfl, rfl⟩
    unfold book_create_post
    rw [show book_create_post_toArray body
        = ((book_create_post_toArray body).1, [.nextStep]) from rfl]
    simp only [hval, book_create_post_final, List.isEmpty_nil, newBook, hg2, hrest, hauthor,
      hgenre, hsave]
    simp
  · intro body book h1 h2 h3 hbook hsave
    have hdue : (if body.due_back = "" then ((none : Option Date), ([] : List ValidationError))
        else (env.toDate body.due_back,
          if env.isISO8601 body.due_back = true then []
          else [{ value := body.due_back, msg := "Invalid date", param := "due_back" }]))
        = (if body.due_back = "" then none else env.toDate body.due_back, []) := by
      rcases h3 with h3 | h3
      · simp [h3]
      · by_cases h0 : body.due_back = "" <;> simp [h0, h3]
    refine ⟨{ _id := newId, book := some book, imprint := escape (trim body.imprint),
              status := escape body.status,
              due_back := if body.due_back = "" then none else env.toDate body.due_back },
      ?_, rfl, rfl, rfl⟩
    simp only [bookinstance_create_post, bookinstance_validate, requiredChain_valid _ _ _ h1,
      requiredChain_valid _ _ _ h2, hdue, hbook, hsave]
    simp
  · intro name h1 hfind hsave
    rw [genre_create_post_valid env faults newId name db h1, hfind, hsave]
    constructor
    · intro h
      simp [h]
    · intro found h
      simp [h]

/-- Witness for C2 as amended: a Book titled " Tehanu ", a copy with the imprint
" Gollancz, 2004 " and the new Genre name " Horror " submitted to the sample database; the
saved fields are "Tehanu", "Gollancz, 2004" and "Horror". -/
theorem create_post_valid_saves_witness :
    (∃ saved : Book,
      book_create_post sampleEnv noFaults "bbbbbbbbbbbbbbbbbbbbbb03"
          { genre := .scalar "cccccccccccccccccccccc01",
            rest := { title := " Tehanu ", author := " aaaaaaaaaaaaaaaaaaaaaaa1",
                      summary := "The <last> book", isbn := "9780689845338 " } } sampleDb
        = ([.redirect (sampleEnv.bookUrl saved._id)],
           { sampleDb with books := sampleDb.books ++ [saved] })
      ∧ saved._id = "bbbbbbbbbbbbbbbbbbbbbb03"
      ∧ saved.title = "Tehanu"
      ∧ saved.author = "aaaaaaaaaaaaaaaaaaaaaaa1"
      ∧ saved.summary = "The &lt;last&gt; book"
      ∧ saved.isbn = "9780689845338")
    ∧ (∃ saved : BookInstance,
      bookinstance_create_post sampleEnv noFaults "dddddddddddddddddddddd03"
          { book := " bbbbbbbbbbbbbbbbbbbbbb01 ", imprint := " Gollancz, 2004 ",
            status := "Available", due_back := "2024-01-31" } sampleDb
        = ([.redirect (sampleEnv.instanceUrl saved._id)],
           { sampleDb with instances := sampleDb.instances ++ [saved] })
      ∧ saved._id = "dddddddddddddddddddddd03"
      ∧ saved.book = some "bbbbbbbbbbbbbbbbbbbbbb01"
      ∧ saved.imprint = "Gollancz, 2004")
    ∧ genre_create_post sampleEnv noFaults "cccccccccccccccccccccc03" " Horror " sampleDb
      = ([.redirect (sampleEnv.genreUrl "cccccccccccccccccccccc03")],
         { sampleDb with genres := sampleDb.genres ++
            [{ _id := "cccccccccccccccccccccc03", name := escape (trim " Horror ") }] }) := by
  refine ⟨?_, ?_, ?_⟩
  · obtain ⟨saved, h, h1, h2, h3, h4, h5⟩ :=
      (create_post_valid_saves sampleEnv noFaults "bbbbbbbbbbbbbbbbbbbbbb03" sampleDb).1
        { genre := .scalar "cccccccccccccccccccccc01",
          rest := { title := " Tehanu ", author := " aaaaaaaaaaaaaaaaaaaaaaa1",
                    summary := "The <last> book", isbn := "9780689845338 " } }
        "aaaaaaaaaaaaaaaaaaaaaaa1" ["cccccccccccccccccccccc01"]
        (by decide) (by decide) (by decide) (by decide) (by decide) (by decide) rfl
    exact ⟨saved, h, h1, by rw [h2]; decide, h3, by rw [h4]; decide, by rw [h5]; decide⟩
  · obtain ⟨saved, h, h1, h2, h3⟩ :=
      (create_post_valid_saves sampleEnv noFaults "dddddddddddddddddddddd03" sampleDb).2.1
        { book := " bbbbbbbbbbbbbbbbbbbbbb01 ", imprint := " Gollancz, 2004 ",
          status := "Available", due_back := "2024-01-31" }
        "bbbbbbbbbbbbbbbbbbbbbb01"
        (by decide) (by decide) (Or.inr (by decide)) (by decide) rfl
    exact ⟨saved, h, h1, h2, by rw [h3]; decide⟩
  · exact ((create_post_valid_saves sampleEnv noFaults "cccccccccccccccccccccc03"
      sampleDb).2.2 " Horror " (by decide) rfl rfl).1 (by decide)

/-- C3 at a failing input: a BookInstance submission whose `book` field is blank, with every
database call succeeding and identifiers being strings of 24 hexadecimal digits. The blank
value is no identifier, `bookinstance.book` is undefined, and reading `bookinstance.book._id`
while building the locals throws: the handler forwards a `TypeError` to `next` and does not
render the form. The database is unchanged. -/
theorem bookinstance_create_post_blank_book_no_form :
    ¬ 1 ≤ (trim "  ").length
    ∧ castRef sampleEnv (escape (trim "  ")) = none
    ∧ bookinstance_create_post sampleEnv noFaults "dddddddddddddddddddddd03"
        { book := "  ", imprint := "Gollancz, 2004", status := "Available", due_back := "" }
        sampleDb
      = ([.next typeError], sampleDb) := by
  refine ⟨by decide, by decide, by decide⟩

/-- What the create handlers do with a submission that fails validation. The database is
never changed. `genre_create_post` re-renders its form with the single message.
`book_create_post`, when its two list queries succeed, re-renders its form with an errors
list holding, for each of the four required fields, one entry if the field is empty after
trimming and none otherwise. `bookinstance_create_post`, when its list query succeeds,
re-renders its form with such a list (for `book`, `imprint`) if the submitted book is an
identifier, and forwards a `TypeError` to `next` if it is not. -/
theorem create_post_invalid_calls (env : Env) (faults : Faults) (newId : String) (db : Db) :
    (∀ name : String, ¬ 1 ≤ (trim name).length →
        genre_create_post env faults newId name db
          = ([.render "genre_form"
                (.genreForm "Create Genre" { _id := newId, name := escape (trim name) }
                  [{ value := trim name, msg := "Genre name required", param := "name" }])],
             db))
    ∧ (∀ body : ReqBody BookFields,
        (¬ 1 ≤ (trim body.rest.title).length ∨ ¬ 1 ≤ (trim body.rest.author).length
          ∨ ¬ 1 ≤ (trim body.rest.summary).length ∨ ¬ 1 ≤ (trim body.rest.isbn).length) →
        (book_create_post env faults newId body db).2 = db
        ∧ (faults "Author.find" = none → faults "Genre.find" = none →
            ∃ genres book errors,
              (book_create_post env faults newId body db).1
                = [.render "book_form"
                    (.bookFormErrors "Create Book" db.authors genres book errors)]
              ∧ book.title = escape (trim body.rest.title)
              ∧ countFor errors "title" = (if 1 ≤ (trim body.rest.title).length then 0 else 1)
              ∧ countFor errors "author" = (if 1 ≤ (trim body.rest.author).length then 0 else 1)
              ∧ countFor errors "summary"
                  = (if 1 ≤ (trim body.rest.summary).length then 0 else 1)
              ∧ countFor errors "isbn" = (if 1 ≤ (trim body.rest.isbn).length then 0 else 1)
              ∧ errors.length = countFor errors "title" + countFor errors "author"
                  + countFor errors "summary" + countFor errors "isbn"))
    ∧ (∀ body : InstanceBody,
        (¬ 1 ≤ (trim body.book).length ∨ ¬ 1 ≤ (trim body.imprint).length) →
        (bookinstance_create_post env faults newId body db).2 = db
        ∧ (faults "Book.find" = none → castRef env (escape (trim body.book)) = none →
            (bookinstance_create_post env faults newId body db).1 = [.next typeError])
        ∧ (faults "Book.find" = none →
            ∀ ref, castRef env (escape (trim body.book)) = some ref →
            ∃ errors bookinstance,
              (bookinstance_create_post env faults newId body db).1
                = [.render "bookinstance_form"
                    (.instanceForm "Create BookInstance" (bookTitles db) ref errors
                      bookinstance)]
              ∧ bookinstance.book = some ref
              ∧ countFor errors "book" = (if 1 ≤ (trim body.book).length then 0 else 1)
              ∧ countFor errors "imprint"
                  = (if 1 ≤ (trim body.imprint).length then 0 else 1))) := by
  refine ⟨?_, ?_, ?_⟩
  · intro name h
    simp [genre_create_post, requiredChain_invalid _ _ _ h]
  · intro body hbad
    have hrest : (book_create_post_toArray body).1.rest = body.rest := by
      cases hg : body.genre <;> simp [book_create_post_toArray, hg]
    have herr : (book_validate (book_create_post_toArray body).1).2 ≠ [] := by
      simp only [book_validate, hrest]
      rcases hbad with h | h | h | h <;> simp [requiredChain, h]
    have hemp : (!(book_validate (book_create_post_toArray body).1).2.isEmpty) = true := by
      cases hl : (book_validate (book_create_post_toArray body).1).2 with
      | nil => exact absurd hl herr
      | cons a l => rfl
    have hunf : book_create_post env faults newId body db
        = book_create_post_final env faults newId (book_validate (book_create_post_toArray body).1).1
            (book_validate (book_create_post_toArray body).1).2 db := rfl
    constructor
    · rw [hunf]
      simp only [book_create_post_final, hemp, if_true]
      cases faults "Author.find" <;> cases faults "Genre.find" <;>
        simp [query, thenCallback, parallel2]
    · intro ha hg
      refine ⟨markIncluded (newBook env newId (book_validate (book_create_post_toArray body).1).1.rest
          (castGenre (book_validate (book_create_post_toArray body).1).1.genre)) (genreDocs db),
        newBook env newId (book_validate (book_create_post_toArray body).1).1.rest
          (castGenre (book_validate (book_create_post_toArray body).1).1.genre),
        (book_validate (book_create_post_toArray body).1).2, ?_, ?_, ?_⟩
      · rw [hunf]
        simp only [book_create_post_final, hemp, if_true, ha, hg, query, thenCallback,
          parallel2]
      · simp [newBook, book_validate, requiredChain, hrest]
      · simp only [book_validate, hrest, countFor_append, countFor_requiredChain]
        have hlen : ∀ f m r, (requiredChain f m r).2.length
            = if 1 ≤ (trim r).length then 0 else 1 := by
          intro f m r
          by_cases h : 1 ≤ (trim r).length <;> simp [requiredChain, h]
        simp only [List.length_append, hlen]
        refine ⟨?_, ?_, ?_, ?_, ?_⟩ <;>
          by_cases h1 : 1 ≤ (trim body.rest.title).length <;>
          by_cases h2 : 1 ≤ (trim body.rest.author).length <;>
          by_cases h3 : 1 ≤ (trim body.rest.summary).length <;>
          by_cases h4 : 1 ≤ (trim body.rest.isbn).length <;>
          simp [h1, h2, h3, h4]
  · intro body hbad
    have herr : (bookinstance_validate env body).2 ≠ [] := by
      simp only [bookinstance_validate]
      rcases hbad with h | h <;> simp [requiredChain, h]
    have hemp : (!(bookinstance_validate env body).2.isEmpty) = true := by
      cases hl : (bookinstance_validate env body).2 with
      | nil => exact absurd hl herr
      | cons a l => rfl
    have hbk : (bookinstance_validate env body).1.book = escape (trim body.book) := by
      simp [bookinstance_validate, requiredChain]
    refine ⟨?_, ?_, ?_⟩
    · simp only [bookinstance_create_post, hemp, if_true]
      cases faults "Book.find" <;> cases castRef env (bookinstance_validate env body).1.book <;>
        simp [query]
    · intro hf hc
      simp only [bookinstance_create_post, hemp, if_true, hf, query, hbk, hc]
    · intro hf ref hc
      refine ⟨(bookinstance_validate env body).2,
        (⟨newId, castRef env (bookinstance_validate env body).1.book,
          (bookinstance_validate env body).1.imprint, (bookinstance_validate env body).1.status,
          (bookinstance_validate env body).1.due_back⟩ : BookInstance), ?_, ?_, ?_⟩
      · simp only [bookinstance_create_post, hemp, if_true, hf, query, hbk, hc]
      · simp only [hbk, hc]
      · simp only [bookinstance_validate, countFor_append, countFor_requiredChain]
        have hdue : ∀ f, f ≠ "due_back" → countFor (if body.due_back = "" then
              ((none : Option Date), ([] : List ValidationError))
            else (env.toDate body.due_back,
              if env.isISO8601 body.due_back = true then []
              else [{ value := body.due_back, msg := "Invalid date", param := "due_back" }])).2 f
            = 0 := by
          intro f hne
          by_cases h0 : body.due_back = "" <;> by_cases h1 : env.isISO8601 body.due_back = true
            <;> simp [countFor, h0, h1, Ne.symm hne]
        rw [hdue "book" (by decide), hdue "imprint" (by decide)]
        constructor <;>
          by_cases h1 : 1 ≤ (trim body.book).length <;>
          by_cases h2 : 1 ≤ (trim body.imprint).length <;>
          simp [h1, h2]

end LibraryCatalog
